import Mathlib

/-!
Verification of rapid-photo-downloader (excerpt: `raphodo/__init__.py` and
`raphodo/ui/toggleview.py`) against its natural-language specification.

The first part embeds the locale-resolution procedure and the module-level
translation initialization of `raphodo/__init__.py`.  Filesystem and
environment state are explicit records of Boolean-valued oracles; Python
`os.path.join` (POSIX flavour) is embedded faithfully, including its
behaviour of discarding earlier components when a later component is
absolute.  Modification times are modelled as integers (the code only
compares them with each other and with the constant 0.0).
-/

/-- Python list-of-chars helper: does `pat` occur at the head of `s`? -/
def hasLead : List Char → List Char → Bool
  | _, [] => true
  | [], _ :: _ => false
  | a :: as, b :: bs => a == b && hasLead as bs

/-- Python list-of-chars helper: does `pat` occur anywhere inside `s`? -/
def hasSub : List Char → List Char → Bool
  | [], pat => pat.isEmpty
  | s@(_ :: rest), pat => hasLead s pat || hasSub rest pat

/-- Embedding of Python `s.find(pat) >= 0`: substring containment. -/
def pyFindNonneg (s pat : String) : Bool :=
  hasSub s.data pat.data

/-- Test used by POSIX `os.path.join`: does the path start with the
separator, i.e. is it absolute? -/
def startsWithSep (s : String) : Bool :=
  match s.data with
  | [] => false
  | c :: _ => c == '/'

/-- Test used by POSIX `os.path.join`: does the path end with the
separator? -/
def endsWithSep (s : String) : Bool :=
  match s.data.getLast? with
  | none => false
  | some c => c == '/'

/-- Embedding of POSIX `os.path.join` on two components: an absolute second
component replaces the first; otherwise a single separator is inserted
unless the first component is empty or already ends in one. -/
def ospathJoin (a b : String) : String :=
  if startsWithSep b then b
  else if a.data.isEmpty then b
  else if endsWithSep a then a ++ b
  else a ++ "/" ++ b

/-- The gettext domain (`i18n_domain` in `raphodo/__init__.py`). -/
def i18n_domain : String := "rapid-photo-downloader"

/-- Embedding of `sample_translation()`: the Spanish catalog path used as a
liveness probe. -/
def sample_translation : String :=
  ospathJoin (ospathJoin "es" "LC_MESSAGES") (i18n_domain ++ ".mo")

/-- The environment visible to `locale_directory()`: the three environment
variables it reads and the per-user data directory reported by
`QStandardPaths.writableLocation(GenericDataLocation)`. -/
structure Env where
  snapName : Option String
  snap : Option String
  rpdI18nDir : Option String
  dataHome : String

/-- Filesystem oracles used by `locale_directory()`: `os.path.isfile`,
`os.access(..., os.R_OK)`, `os.path.getmtime` and `os.path.isdir`. -/
structure FSState where
  isFile : String → Bool
  accessR : String → Bool
  getmtime : String → Int
  isDir : String → Bool

/-- Embedding of the candidate-comparison loop of `locale_directory()`
(lines 64-80 of `raphodo/__init__.py`): the threshold `locale_mtime` is
initialized to 0 and — exactly as in the source — never updated inside the
loop. -/
def localeScan (data_home : String) (fs : FSState) : Option String :=
  let sample_lang_path := sample_translation
  let locale_mtime : Int := 0
  List.foldl
    (fun locale_dir path =>
      let locale_path := ospathJoin path "locale"
      let sample_path := ospathJoin locale_path sample_lang_path
      if fs.isFile sample_path && fs.accessR sample_path
          && decide (fs.getmtime sample_path > locale_mtime)
      then some locale_path
      else locale_dir)
    none [data_home, "/usr/share"]

/-- Embedding of `locale_directory()`.  The snap branch returns
`os.path.join(snap_dir, "/usr/lib/locale")` with no filesystem check; the
`RPD_I18N_DIR` branch returns the override only when it is an existing
directory; otherwise control reaches the `assert Path(data_home).is_dir()`
(modelled as `Except.error`) and the candidate scan. -/
def locale_directory (env : Env) (fs : FSState) : Except String (Option String) :=
  let snap_name := (env.snapName).getD ""
  if pyFindNonneg snap_name "rapid-photo-downloader" then
    let snap_dir := (env.snap).getD ""
    Except.ok (some (ospathJoin snap_dir "/usr/lib/locale"))
  else
    let fallthrough : Except String (Option String) :=
      if fs.isDir env.dataHome then Except.ok (localeScan env.dataHome fs)
      else Except.error "assertion failed: data_home is not a directory"
    match env.rpdI18nDir with
    | some d => if fs.isDir d then Except.ok (some d) else fallthrough
    | none => fallthrough

/-- Embedding of `no_translation_performed`: the identity fallback lookup. -/
def no_translation_performed (s : String) : String := s

/-- Outcome of `gettext.translation(...)` as observed by the module-level
code: success with an installed lookup function, `FileNotFoundError`, or
any other exception. -/
inductive CatalogLoadResult where
  | ok : (String → String) → CatalogLoadResult
  | fileNotFound : CatalogLoadResult
  | otherError : CatalogLoadResult

/-- A load result that raised, i.e. was caught by one of the two `except`
clauses. -/
def CatalogLoadResult.failed : CatalogLoadResult → Prop
  | .ok _ => False
  | .fileNotFound => True
  | .otherError => True

/-- External collaborators of the module-level initialization code: the
environment and filesystem, the `QSettings` value
`Display/language` (empty string when unset), the result of
`locale.getdefaultlocale()` (its language component), and the external
`gettext.translation` loader as an oracle from (localedir, languages)
to an outcome. -/
structure I18nConfig where
  env : Env
  fs : FSState
  displayLanguage : String
  defaultLocale : Option String
  loadCatalog : String → Option String → CatalogLoadResult

/-- Process-wide translation state established by the module-level code:
the `lang` variable, the `lang_installed` flag, and the installed `_`
lookup function. -/
structure I18nState where
  lang : Option String
  lang_installed : Bool
  translate : String → String

/-- Embedding of the module-level initialization of `raphodo/__init__.py`
(lines 96-127): resolve the locale directory, check the sample file there,
choose the language from settings or the system default, attempt the
catalog load, and on any failure install `no_translation_performed` as the
process-wide lookup.  An `AssertionError` escaping `locale_directory`
propagates as `Except.error`. -/
def initializeTranslations (cfg : I18nConfig) : Except String I18nState :=
  match locale_directory cfg.env cfg.fs with
  | Except.error e => Except.error e
  | Except.ok localedir =>
    Except.ok <|
      match localedir with
      | some d =>
        if cfg.fs.isFile (ospathJoin d sample_translation) then
          let lang : Option String :=
            if cfg.displayLanguage = "" then cfg.defaultLocale
            else some cfg.displayLanguage
          match cfg.loadCatalog d lang with
          | CatalogLoadResult.ok tr =>
            { lang := lang, lang_installed := true, translate := tr }
          | CatalogLoadResult.fileNotFound =>
            { lang := lang, lang_installed := false,
              translate := no_translation_performed }
          | CatalogLoadResult.otherError =>
            { lang := lang, lang_installed := false,
              translate := no_translation_performed }
        else
          { lang := none, lang_installed := false,
            translate := no_translation_performed }
      | none =>
        { lang := none, lang_installed := false,
          translate := no_translation_performed }

/-!
The second part embeds the `QToggleView` widget of
`raphodo/ui/toggleview.py`.  A child widget is modelled by its visibility
flag.  The widget state carries the optional content widget, the optional
alternate (blank) widget, the toggle switch state, and the log of
`valueChanged` emissions.  The classes `QPanelView`, `QToggleSwitch` and
`BlankWidget` are imported by `toggleview.py` from modules that are not
part of this excerpt; the definitions that stand in for them are modelled
from the specification and say so in their doc comments.
-/

/-- A child widget, reduced to the one attribute `QToggleView` mutates:
its visibility flag. -/
structure Widget where
  visible : Bool
deriving DecidableEq

/-- State of one `QToggleView` instance: `content` is the panel content
(`QPanelView.content`, `none` until attached), `alternateWidget` is the
blank placeholder (present iff `display_alternate` was passed),
`switchOn` is the toggle switch state (`self.toggleSwitch.on()`), and
`emitted` logs the payloads of `valueChanged` emissions in order. -/
structure TVState where
  content : Option Widget
  alternateWidget : Option Widget
  switchOn : Bool
  emitted : List Bool

/-- The visibility updates performed by the body of `toggled` (lines
103-106): only when content is attached, set the content visible iff the
switch is on, and, when the alternate widget exists, set it visible iff
the switch is off. -/
def applyVisibility (s : TVState) : TVState :=
  match s.content with
  | none => s
  | some c =>
    match s.alternateWidget with
    | none => { s with content := some { c with visible := s.switchOn } }
    | some a =>
      { s with content := some { c with visible := s.switchOn },
               alternateWidget := some { a with visible := !s.switchOn } }

/-- Embedding of the slot `QToggleView.toggled(value)` (lines 101-108):
apply the visibility updates, then emit `valueChanged(self.on())`.  The
integer argument is ignored, as in the source. -/
def toggled (s : TVState) (_value : Int) : TVState :=
  let s1 := applyVisibility s
  { s1 with emitted := s1.emitted ++ [s1.switchOn] }

/-- Modelled from the spec: `QToggleSwitch.setOn` (the `toggleswitch`
module is absent from this excerpt).  Per spec section 4.2, forcing the
control to a value "triggers the transition logic identically to a
user-driven change": the switch state is set and its `valueChanged`
signal, connected to `QToggleView.toggled` in the constructor, fires. -/
def switchSetOn (s : TVState) (isOn : Bool) : TVState :=
  toggled { s with switchOn := isOn } 0

/-- Embedding of `QToggleView.setOn` (lines 96-99): delegate to the
switch. -/
def setOn (s : TVState) (isOn : Bool) : TVState :=
  switchSetOn s isOn

/-- Modelled from the spec: `QPanelView.addWidget` (the `panelview` module
is absent from this excerpt) "attaches `widget` as the panel's content".
-/
def panelAddWidget (s : TVState) (w : Widget) : TVState :=
  { s with content := some w }

/-- Embedding of `QToggleView.addWidget` (lines 87-89): attach via the
base class, then call `self.toggled(0)`. -/
def addWidget (s : TVState) (w : Widget) : TVState :=
  toggled (panelAddWidget s w) 0

/-- A user-driven change of the toggle control to a new value: the switch
state changes and its `valueChanged` signal fires, reaching `toggled`.
Identical to `switchSetOn` — the spec notes there is deliberately no
distinct code path. -/
def controlChange (s : TVState) (v : Bool) : TVState :=
  switchSetOn s v

/-- Embedding of the `QToggleView` constructor (lines 47-85), restricted
to the state this model tracks: the alternate widget exists iff
`display_alternate`; the initial visibility `altVis0` of the fresh
`BlankWidget` is left abstract (modelled from the spec, which does not fix
the toolkit's initial shown-state of a freshly created child); finally
`self.toggleSwitch.setOn(on)` runs, triggering the transition logic. -/
def construct (display_alternate : Bool) (altVis0 : Bool) (isOn0 : Bool) : TVState :=
  let s0 : TVState :=
    { content := none,
      alternateWidget := if display_alternate then some { visible := altVis0 } else none,
      switchOn := false,
      emitted := [] }
  switchSetOn s0 isOn0

/-- The externally triggerable operations on a constructed `QToggleView`.
-/
inductive Op where
  | opSetOn : Bool → Op
  | opAttach : Widget → Op
  | opControl : Bool → Op

/-- One transition of the widget state machine. -/
def step (s : TVState) : Op → TVState
  | Op.opSetOn b => setOn s b
  | Op.opAttach w => addWidget s w
  | Op.opControl b => controlChange s b

/-- Run a sequence of operations. -/
def run (s : TVState) (ops : List Op) : TVState :=
  List.foldl step s ops

/-- Geometry inputs of the size computations (lines 110-126): the header
height (`self.header.height()`, the header being built by the absent
`QPanelView` base class and hence abstract here), the result of
`super().minimumSize()` as read without a forced geometry pass, and the
same result after `self.updateGeometry()` has been called. -/
structure PanelGeom where
  headerHeight : Nat
  superMin : Nat × Nat
  superMinFresh : Nat × Nat

/-- Embedding of `QToggleView.minimumHeight` (lines 116-123): the header
height when collapsed, otherwise the post-`updateGeometry` base minimum
height. -/
def minimumHeight (g : PanelGeom) (isOn : Bool) : Nat :=
  if isOn = false then g.headerHeight else g.superMinFresh.2

/-- Embedding of `QToggleView.minimumSize` (lines 110-114): width from
`super().minimumSize()`, height from `self.minimumHeight()`. -/
def minimumSize (g : PanelGeom) (isOn : Bool) : Nat × Nat :=
  ((g.superMin).1, minimumHeight g isOn)

/-- Embedding of `QToggleView.sizeHint` (lines 125-126). -/
def sizeHint (g : PanelGeom) (isOn : Bool) : Nat × Nat :=
  minimumSize g isOn

/-!
Concrete environments and filesystems used to evaluate the embedded code
at specific inputs.
-/

/-- Sample-catalog path under the per-user data directory of
`envUserNewer`. -/
def userSamplePath : String :=
  "/home/user/.local/share/locale/es/LC_MESSAGES/rapid-photo-downloader.mo"

/-- Sample-catalog path under the system-wide share directory. -/
def sysSamplePath : String :=
  "/usr/share/locale/es/LC_MESSAGES/rapid-photo-downloader.mo"

/-- An environment with no snap and no `RPD_I18N_DIR` override. -/
def envUserNewer : Env :=
  { snapName := none, snap := none, rpdI18nDir := none,
    dataHome := "/home/user/.local/share" }

/-- A filesystem in which both sample catalogs exist and are readable and
the per-user one is strictly newer (mtime 200 against 100). -/
def fsUserNewer : FSState :=
  { isFile := fun p => p == userSamplePath || p == sysSamplePath,
    accessR := fun p => p == userSamplePath || p == sysSamplePath,
    getmtime := fun p =>
      if p == userSamplePath then 200
      else if p == sysSamplePath then 100 else 0,
    isDir := fun p => p == "/home/user/.local/share" }

/-- An environment whose `SNAP_NAME` contains the application identifier;
`SNAP` and `RPD_I18N_DIR` are also set, to show they are ignored. -/
def envSnapBuild : Env :=
  { snapName := some "rapid-photo-downloader", snap := some "/snap/rpd/x1",
    rpdI18nDir := some "/ignored", dataHome := "/home/u/.local/share" }

/-- A filesystem with no files and no directories at all. -/
def fsNothing : FSState :=
  { isFile := fun _ => false, accessR := fun _ => false,
    getmtime := fun _ => 0, isDir := fun _ => false }

/-- An environment with `RPD_I18N_DIR` set to `/opt/i18n` and no snap. -/
def envRpdOverride : Env :=
  { snapName := none, snap := none, rpdI18nDir := some "/opt/i18n",
    dataHome := "/home/u/.local/share" }

/-- A filesystem in which only `/opt/i18n` is a directory. -/
def fsRpdOverride : FSState :=
  { isFile := fun _ => false, accessR := fun _ => false,
    getmtime := fun _ => 0, isDir := fun p => p == "/opt/i18n" }

/-- An environment with no override and data directory `/dh`. -/
def envBothCandidates : Env :=
  { snapName := none, snap := none, rpdI18nDir := none, dataHome := "/dh" }

/-- A filesystem in which both candidate sample catalogs qualify, the
per-user one with mtime 7 and the system-wide one with mtime 3. -/
def fsBothCandidates : FSState :=
  { isFile := fun _ => true, accessR := fun _ => true,
    getmtime := fun p =>
      if p == "/dh/locale/es/LC_MESSAGES/rapid-photo-downloader.mo" then 7
      else if p == "/usr/share/locale/es/LC_MESSAGES/rapid-photo-downloader.mo"
      then 3 else 0,
    isDir := fun p => p == "/dh" }

/-- A configuration under which the resolved directory and sample file
check pass (snap branch, all files present) but every catalog load raises
`FileNotFoundError`. -/
def cfgLoadFails : I18nConfig :=
  { env := { snapName := some "rapid-photo-downloader", snap := none,
             rpdI18nDir := none, dataHome := "/h" },
    fs := { isFile := fun _ => true, accessR := fun _ => true,
            getmtime := fun _ => 0, isDir := fun _ => true },
    displayLanguage := "es",
    defaultLocale := none,
    loadCatalog := fun _ _ => CatalogLoadResult.fileNotFound }

/-- The translation state the module-level code computes under
`cfgLoadFails`. -/
def stLoadFails : I18nState :=
  { lang := some "es", lang_installed := false,
    translate := no_translation_performed }

/-!
Theorems.  Helper lemmas come first, then one theorem per claim (with a
witness where the claim theorem carries hypotheses).
-/

/-- Joining onto an absolute second component yields that component. -/
theorem ospathJoin_abs (a b : String) (h : startsWithSep b = true) :
    ospathJoin a b = b := by
  simp [ospathJoin, h]

/-- The `toggled` slot does not change the switch state. -/
theorem toggled_switchOn (s : TVState) (v : Int) :
    (toggled s v).switchOn = s.switchOn := by
  cases h1 : s.content <;> cases h2 : s.alternateWidget <;>
    simp [toggled, applyVisibility, h1, h2]

/-- The `toggled` slot appends exactly one emission, carrying the switch
state. -/
theorem toggled_emitted (s : TVState) (v : Int) :
    (toggled s v).emitted = s.emitted ++ [s.switchOn] := by
  cases h1 : s.content <;> cases h2 : s.alternateWidget <;>
    simp [toggled, applyVisibility, h1, h2]

/-- The `toggled` slot preserves the existence of the alternate widget. -/
theorem toggled_alternate_isSome (s : TVState) (v : Int) :
    ((toggled s v).alternateWidget).isSome = (s.alternateWidget).isSome := by
  cases h1 : s.content <;> cases h2 : s.alternateWidget <;>
    simp [toggled, applyVisibility, h1, h2]

/-- After `toggled`, attached content is visible iff the switch is on, and
an existing alternate widget has the complementary visibility. -/
theorem toggled_matches (s : TVState) (v : Int) (c : Widget)
    (hc : (toggled s v).content = some c) :
    c.visible = (toggled s v).switchOn ∧
    ∀ a, (toggled s v).alternateWidget = some a → a.visible = !c.visible := by
  cases h1 : s.content <;> cases h2 : s.alternateWidget <;>
    simp [toggled, applyVisibility, h1, h2] at hc ⊢ <;>
    simp [toggled_switchOn, ← hc]

/-- Every operation ends in `toggled`, so `toggled_matches` transfers to
arbitrary transitions. -/
theorem step_matches (s : TVState) (op : Op) (c : Widget)
    (hc : (step s op).content = some c) :
    c.visible = (step s op).switchOn ∧
    ∀ a, (step s op).alternateWidget = some a → a.visible = !c.visible := by
  cases op with
  | opSetOn b => exact toggled_matches _ 0 c hc
  | opAttach w => exact toggled_matches _ 0 c hc
  | opControl b => exact toggled_matches _ 0 c hc

/-- A transition preserves the existence of the alternate widget. -/
theorem step_alternate_isSome (s : TVState) (op : Op) :
    ((step s op).alternateWidget).isSome = (s.alternateWidget).isSome := by
  cases op with
  | opSetOn b => exact toggled_alternate_isSome _ 0
  | opAttach w => exact toggled_alternate_isSome _ 0
  | opControl b => exact toggled_alternate_isSome _ 0

/-- A run of transitions preserves the existence of the alternate widget.
-/
theorem run_alternate_isSome (ops : List Op) (s : TVState) :
    ((run s ops).alternateWidget).isSome = (s.alternateWidget).isSome := by
  induction ops generalizing s with
  | nil => rfl
  | cons op ops ih =>
    have h2 := ih (step s op)
    have h1 := step_alternate_isSome s op
    simpa [run, List.foldl] using h2.trans h1

/-- Claim C1 (evaluation at the failing input): in a filesystem state with
no snap or `RPD_I18N_DIR` override where both sample catalogs exist and
are readable and the per-user catalog (`userSamplePath`, the sample path
of the per-user candidate root) is strictly newer than the system-wide
one, `locale_directory` nevertheless returns the system-wide
`/usr/share/locale` — contradicting the claim (and the source docstring)
that the candidate with the most recent sample file is returned.  The
cause is that the threshold `locale_mtime` is never updated in the loop.
-/
theorem locale_directory_ignores_newer_user_catalog :
    userSamplePath =
      ospathJoin (ospathJoin envUserNewer.dataHome "locale") sample_translation ∧
    fsUserNewer.isFile userSamplePath = true ∧
    fsUserNewer.accessR userSamplePath = true ∧
    fsUserNewer.isFile sysSamplePath = true ∧
    fsUserNewer.accessR sysSamplePath = true ∧
    fsUserNewer.getmtime sysSamplePath > 0 ∧
    fsUserNewer.getmtime userSamplePath > fsUserNewer.getmtime sysSamplePath ∧
    locale_directory envUserNewer fsUserNewer =
      Except.ok (some "/usr/share/locale") :=
  ⟨rfl, rfl, rfl, rfl, rfl, by decide, by decide, rfl⟩

/-- Claim C2: starting from a `QToggleView` constructed with
`display_alternate = true`, after any transition (any `setOn`, attach or
toggle-control change following any sequence of such operations) in which
content is attached, the content is visible exactly when the toggle is on
and the alternate widget exists and has the complementary visibility, so
exactly one of the two is visible. -/
theorem toggleview_complementary_visibility
    (altVis0 isOn0 : Bool) (ops : List Op) (op : Op) (c : Widget)
    (hc : (step (run (construct true altVis0 isOn0) ops) op).content = some c) :
    c.visible = (step (run (construct true altVis0 isOn0) ops) op).switchOn ∧
    ∃ a, (step (run (construct true altVis0 isOn0) ops) op).alternateWidget
        = some a ∧ a.visible = !c.visible := by
  obtain ⟨h1, h2⟩ := step_matches _ op c hc
  refine ⟨h1, ?_⟩
  have hsome :
      ((step (run (construct true altVis0 isOn0) ops) op).alternateWidget).isSome
        = true := by
    rw [step_alternate_isSome, run_alternate_isSome]
    rfl
  obtain ⟨a, ha⟩ := Option.isSome_iff_exists.mp hsome
  exact ⟨a, ha, h2 a ha⟩

/-- Witness for claim C2: attaching a visible widget to a freshly
constructed, switched-on view leaves it visible and the alternate widget
hidden. -/
theorem toggleview_complementary_visibility_witness :
    (⟨true⟩ : Widget).visible =
      (step (run (construct true false true) []) (Op.opAttach ⟨true⟩)).switchOn ∧
    ∃ a, (step (run (construct true false true) []) (Op.opAttach ⟨true⟩)).alternateWidget
        = some a ∧ a.visible = !(⟨true⟩ : Widget).visible :=
  toggleview_complementary_visibility false true [] (Op.opAttach ⟨true⟩) ⟨true⟩
    (by rfl)

/-- Claim C3: whenever `SNAP_NAME` contains `rapid-photo-downloader`,
`locale_directory` returns the fixed path `/usr/lib/locale` for every
filesystem state and every environment (in particular for every value of
`SNAP`, which `os.path.join` discards because the second component is
absolute), with no existence or readability check. -/
theorem locale_directory_snap_fixed_path (env : Env) (fs : FSState)
    (hsnap : pyFindNonneg ((env.snapName).getD "") "rapid-photo-downloader" = true) :
    locale_directory env fs = Except.ok (some "/usr/lib/locale") := by
  have h1 : startsWithSep "/usr/lib/locale" = true := rfl
  simp [locale_directory, hsnap, ospathJoin_abs _ _ h1]

/-- Witness for claim C3: a snap environment with `SNAP` set and an empty
filesystem still yields `/usr/lib/locale`. -/
theorem locale_directory_snap_fixed_path_witness :
    locale_directory envSnapBuild fsNothing = Except.ok (some "/usr/lib/locale") :=
  locale_directory_snap_fixed_path envSnapBuild fsNothing (by rfl)

/-- Claim C4: if every attempted catalog load raises (catalog-not-found or
any other exception), then whenever the module-level initialization
completes it leaves `lang_installed = false` and installs the identity
lookup, so `translate s = s` for every string `s`. -/
theorem initializeTranslations_failure_identity (cfg : I18nConfig)
    (hfail : ∀ d lang, (cfg.loadCatalog d lang).failed) :
    ∀ st, initializeTranslations cfg = Except.ok st →
      st.lang_installed = false ∧ ∀ s, st.translate s = s := by
  intro st hst
  rw [initializeTranslations] at hst
  cases hld : locale_directory cfg.env cfg.fs with
  | error e => rw [hld] at hst; exact Except.noConfusion hst
  | ok localedir =>
    rw [hld] at hst
    cases localedir with
    | none =>
      simp only [Except.ok.injEq] at hst
      rw [← hst]
      exact ⟨rfl, fun s => rfl⟩
    | some d =>
      simp only [Except.ok.injEq] at hst
      cases hf : cfg.fs.isFile (ospathJoin d sample_translation) with
      | false =>
        simp only [hf] at hst
        rw [← hst]
        exact ⟨rfl, fun s => rfl⟩
      | true =>
        simp only [hf] at hst
        cases hc : cfg.loadCatalog d
            (if cfg.displayLanguage = "" then cfg.defaultLocale
             else some cfg.displayLanguage) with
        | ok tr =>
          have hbad := hfail d
            (if cfg.displayLanguage = "" then cfg.defaultLocale
             else some cfg.displayLanguage)
          rw [hc] at hbad
          exact hbad.elim
        | fileNotFound =>
          simp only [hc] at hst
          rw [← hst]
          exact ⟨rfl, fun s => rfl⟩
        | otherError =>
          simp only [hc] at hst
          rw [← hst]
          exact ⟨rfl, fun s => rfl⟩

/-- Witness for claim C4: under `cfgLoadFails` the initialization yields
`stLoadFails`, which has `lang_installed = false` and identity lookups. -/
theorem initializeTranslations_failure_identity_witness :
    stLoadFails.lang_installed = false ∧ ∀ s, stLoadFails.translate s = s :=
  initializeTranslations_failure_identity cfgLoadFails (fun _ _ => True.intro)
    stLoadFails (by rfl)

/-- Claim C5: every transition (every `setOn`, every `addWidget`, every
toggle-control change) appends exactly one `valueChanged` emission
carrying the resulting toggle state, and the constructor's implicit
initial transition emits exactly the initial state. -/
theorem toggleview_emits_exactly_once :
    (∀ (s : TVState) (op : Op),
      (step s op).emitted = s.emitted ++ [(step s op).switchOn]) ∧
    (∀ (da altVis0 isOn0 : Bool),
      (construct da altVis0 isOn0).emitted = [isOn0]) := by
  constructor
  · intro s op
    cases op with
    | opSetOn b =>
      simp [step, setOn, switchSetOn, toggled_emitted, toggled_switchOn]
    | opAttach w =>
      simp [step, addWidget, panelAddWidget, toggled_emitted, toggled_switchOn]
    | opControl b =>
      simp [step, controlChange, switchSetOn, toggled_emitted, toggled_switchOn]
  · intro da altVis0 isOn0
    cases da <;> rfl

/-- Claim C6: with no snap override, an `RPD_I18N_DIR` value naming an
existing directory is returned as is, regardless of the candidate roots;
when it names no existing directory, resolution proceeds exactly as if the
variable were unset. -/
theorem locale_directory_rpd_override (env : Env) (fs : FSState) (d : String)
    (hsnap : pyFindNonneg ((env.snapName).getD "") "rapid-photo-downloader" = false)
    (hset : env.rpdI18nDir = some d) :
    (fs.isDir d = true → locale_directory env fs = Except.ok (some d)) ∧
    (fs.isDir d = false →
      locale_directory env fs =
        locale_directory { env with rpdI18nDir := none } fs) := by
  constructor <;> intro hd <;> simp [locale_directory, hsnap, hset, hd]

/-- Witness for claim C6: with `RPD_I18N_DIR = /opt/i18n` an existing
directory on an otherwise empty filesystem, that directory is returned. -/
theorem locale_directory_rpd_override_witness :
    locale_directory envRpdOverride fsRpdOverride = Except.ok (some "/opt/i18n") :=
  (locale_directory_rpd_override envRpdOverride fsRpdOverride "/opt/i18n"
    (by rfl) (by rfl)).1 (by rfl)

/-- Claim C7: constructing with initial toggle state `false` (for either
value of `display_alternate` and any initial blank-widget visibility) and
then attaching any widget leaves that widget hidden, with no further
calls: `addWidget` re-runs the transition logic immediately. -/
theorem toggleview_attach_when_off_hidden (da altVis0 : Bool) (w : Widget) :
    (addWidget (construct da altVis0 false) w).content = some { visible := false } := by
  cases da <;> rfl

/-- Claim C8: when the toggle is off, `minimumHeight` equals the header
height for every geometry — in particular independently of the content's
intrinsic size, which enters only through the base-class minimum size —
and `minimumSize` always takes its height component from
`minimumHeight`. -/
theorem toggleview_collapsed_minimum_height :
    (∀ g : PanelGeom, minimumHeight g false = g.headerHeight) ∧
    (∀ (g : PanelGeom) (isOn : Bool),
      minimumSize g isOn = ((g.superMin).1, minimumHeight g isOn)) :=
  ⟨fun _ => rfl, fun _ _ => rfl⟩

/-- Claim C10: when no content is attached, a toggle transition (via
`setOn` or a toggle-control change, both of which reach the `toggled`
slot) emits `valueChanged` with the current state but leaves every child
widget untouched: the alternate widget is unchanged even when it exists,
and the content stays absent. -/
theorem toggleview_no_content_frame_effect (s : TVState) (b : Bool)
    (h : s.content = none) :
    (switchSetOn s b).alternateWidget = s.alternateWidget ∧
    (switchSetOn s b).content = none ∧
    (switchSetOn s b).emitted = s.emitted ++ [b] := by
  simp [switchSetOn, toggled, applyVisibility, h]

/-- Witness for claim C10: switching off a content-less view with an
alternate widget present leaves the alternate widget exactly as it was. -/
theorem toggleview_no_content_frame_effect_witness :
    (switchSetOn ⟨none, some ⟨true⟩, true, []⟩ false).alternateWidget =
      (⟨none, some ⟨true⟩, true, []⟩ : TVState).alternateWidget ∧
    (switchSetOn ⟨none, some ⟨true⟩, true, []⟩ false).content = none ∧
    (switchSetOn ⟨none, some ⟨true⟩, true, []⟩ false).emitted =
      (⟨none, some ⟨true⟩, true, []⟩ : TVState).emitted ++ [false] :=
  toggleview_no_content_frame_effect ⟨none, some ⟨true⟩, true, []⟩ false rfl

/-- Claim C9: with no snap or `RPD_I18N_DIR` override, when the sample
catalogs under both the per-user data directory and `/usr/share` exist,
are readable and have positive modification times, `locale_directory`
returns `/usr/share/locale` — whichever candidate is newer — because the
comparison threshold stays at its initial value and the last qualifying
candidate in iteration order wins. -/
theorem locale_directory_last_candidate_wins (env : Env) (fs : FSState)
    (hsnap : pyFindNonneg ((env.snapName).getD "") "rapid-photo-downloader" = false)
    (hrpd : env.rpdI18nDir = none)
    (hhome : fs.isDir env.dataHome = true)
    (h1 : fs.isFile (ospathJoin (ospathJoin env.dataHome "locale") sample_translation) = true)
    (h2 : fs.accessR (ospathJoin (ospathJoin env.dataHome "locale") sample_translation) = true)
    (h3 : fs.getmtime (ospathJoin (ospathJoin env.dataHome "locale") sample_translation) > 0)
    (h4 : fs.isFile (ospathJoin "/usr/share/locale" sample_translation) = true)
    (h5 : fs.accessR (ospathJoin "/usr/share/locale" sample_translation) = true)
    (h6 : fs.getmtime (ospathJoin "/usr/share/locale" sample_translation) > 0) :
    locale_directory env fs = Except.ok (some "/usr/share/locale") := by
  have hjoin : ospathJoin "/usr/share" "locale" = "/usr/share/locale" := rfl
  simp [locale_directory, localeScan, hsnap, hrpd, hhome, hjoin, h4, h5, h6]

/-- Witness for claim C9: both candidates qualify with the per-user one
newer (mtime 7 against 3), yet `/usr/share/locale` is returned. -/
theorem locale_directory_last_candidate_wins_witness :
    locale_directory envBothCandidates fsBothCandidates =
      Except.ok (some "/usr/share/locale") :=
  locale_directory_last_candidate_wins envBothCandidates fsBothCandidates
    (by rfl) (by rfl) (by rfl) (by rfl) (by rfl) (by decide)
    (by rfl) (by rfl) (by decide)
